import Mathlib

/-!
Verification of the LACT daemon's hardware-monitor and configuration model
(`src/daemon/src/hw_mon.rs`, `src/daemon/src/config.rs`).

The Rust code is shallowly embedded:
* the hwmon sysfs directory is a partial map `FS` from file name to readable
  contents (`none` models a missing/unreadable file);
* hardware writes are modelled by a predicate `WriteOk` saying which writes
  the kernel would accept; performed writes are returned explicitly;
* Rust panics (`unwrap` / `expect` on a failing value) are modelled by the
  `RRes.panicked` constructor;
* `i64` values are modelled as `Int` (Rust's `/` truncates toward zero, which
  is `Int.tdiv`); `f64` fan-curve arithmetic is modelled exactly over `ℚ`.
  At every concrete input evaluated below the double-precision result is
  within 2⁻⁴⁰ of the rational one and truncates to the same integer, so the
  rational model and the `f64` code agree on every integer output considered.
-/

/-- Outcome of running a piece of Rust code that may panic
(`unwrap`/`expect` on a failed value aborts the thread). -/
inductive RRes (α : Type) where
  | ok : α → RRes α
  | panicked : RRes α
deriving DecidableEq, Repr

namespace RRes

def map {α β : Type} (f : α → β) : RRes α → RRes β
  | .ok a => .ok (f a)
  | .panicked => .panicked

end RRes

/-- The hwmon directory: file name ↦ contents, `none` when
`fs::read_to_string` would fail (missing file / IO error). -/
def FS : Type := String → Option String

/-- Which hardware writes the kernel accepts: `fs::write(name, contents)`
succeeds iff `w name contents = true`. -/
def WriteOk : Type := String → String → Bool

/-- `HWMonError` from `hw_mon.rs`. -/
inductive HWMonError where
  | PermissionDenied
  | InvalidValue
  | Unsupported
  | NoHWMon
deriving DecidableEq, Repr

/-- ASCII whitespace, for `str::trim` (the file contents considered here
contain only ASCII). -/
def isWs (c : Char) : Bool :=
  c = ' ' || c = '\t' || c = '\n' || c = '\r'

/-- `str::trim`: strip leading and trailing whitespace. -/
def rustTrim (s : String) : String :=
  ⟨((s.data.dropWhile isWs).reverse.dropWhile isWs).reverse⟩

/-- A decimal digit character to its value. -/
def digitVal (c : Char) : Option Nat :=
  if '0' ≤ c ∧ c ≤ '9' then some (c.toNat - 48) else none

/-- Fold a most-significant-first digit string into a number. -/
def digitsAcc : List Char → Nat → Option Nat
  | [], acc => some acc
  | c :: cs, acc =>
    match digitVal c with
    | some d => digitsAcc cs (acc * 10 + d)
    | none => none

/-- Strip one optional leading sign, returning (is-negative, rest). -/
def splitSign : List Char → Bool × List Char
  | [] => (false, [])
  | c :: rest =>
    if c = '-' then (true, rest)
    else if c = '+' then (false, rest)
    else (false, c :: rest)

/-- `str::parse::<i64>`: optional sign, one or more decimal digits, value
within the `i64` range; anything else is a parse error. -/
def parseI64 (s : String) : Option Int :=
  let p := splitSign s.data
  match p.2 with
  | [] => none
  | ds =>
    match digitsAcc ds 0 with
    | none => none
    | some n =>
      let v : Int := if p.1 then -(n : Int) else (n : Int)
      if -(2 ^ 63) ≤ v ∧ v ≤ 2 ^ 63 - 1 then some v else none

/-- The shared shape of every sensor getter in `hw_mon.rs`:
`match fs::read_to_string(file) { Ok(s) => Some(s.trim().parse().unwrap()), Err(_) => None }`.
A read failure yields `none`; contents that fail to parse hit `unwrap()`
and panic. -/
def readSensorRaw (fs : FS) (file : String) : RRes (Option Int) :=
  match fs file with
  | none => .ok none
  | some contents =>
    match parseI64 (rustTrim contents) with
    | some v => .ok (some v)
    | none => .panicked

/-- `HWMon::get_fan_max_speed`: `fan1_max`, raw value. -/
def get_fan_max_speed (fs : FS) : RRes (Option Int) :=
  readSensorRaw fs "fan1_max"

/-- `HWMon::get_fan_speed`: `fan1_input`, raw value. -/
def get_fan_speed (fs : FS) : RRes (Option Int) :=
  readSensorRaw fs "fan1_input"

/-- `HWMon::get_mem_freq`: `freq2_input`, `/ 1000 / 1000`. -/
def get_mem_freq (fs : FS) : RRes (Option Int) :=
  (readSensorRaw fs "freq2_input").map (Option.map (fun v => (v.tdiv 1000).tdiv 1000))

/-- `HWMon::get_gpu_freq`: `freq1_input`, `/ 1000 / 1000`. -/
def get_gpu_freq (fs : FS) : RRes (Option Int) :=
  (readSensorRaw fs "freq1_input").map (Option.map (fun v => (v.tdiv 1000).tdiv 1000))

/-- `HWMon::get_gpu_temp`: `temp1_input`, `/ 1000`. -/
def get_gpu_temp (fs : FS) : RRes (Option Int) :=
  (readSensorRaw fs "temp1_input").map (Option.map (fun v => v.tdiv 1000))

/-- `HWMon::get_voltage`: `in0_input`, raw value. -/
def get_voltage (fs : FS) : RRes (Option Int) :=
  readSensorRaw fs "in0_input"

/-- `HWMon::get_power_cap_max`: `power1_cap_max`, `/ 1000000`. -/
def get_power_cap_max (fs : FS) : RRes (Option Int) :=
  (readSensorRaw fs "power1_cap_max").map (Option.map (fun v => v.tdiv 1000000))

/-- `HWMon::get_power_cap`: `power1_cap`, `/ 1000000`. -/
def get_power_cap (fs : FS) : RRes (Option Int) :=
  (readSensorRaw fs "power1_cap").map (Option.map (fun v => v.tdiv 1000000))

/-- `HWMon::get_power_avg`: `power1_average`, `/ 1000000`. -/
def get_power_avg (fs : FS) : RRes (Option Int) :=
  (readSensorRaw fs "power1_average").map (Option.map (fun v => v.tdiv 1000000))

example : get_power_cap_max (fun f => if f = "power1_cap_max" then some "150000000\n" else none)
    = .ok (some 150) := by decide
example : get_gpu_temp (fun f => if f = "temp1_input" then some "70000" else none)
    = .ok (some 70) := by decide
example : get_gpu_temp (fun f => if f = "temp1_input" then some "abc" else none)
    = .panicked := by decide
example : get_gpu_temp (fun _ => none) = .ok none := by decide

/-- Little-endian decimal digits of `n`; the first argument is structural
fuel (any fuel `≥ n` gives the digits of `n`). -/
def digitsRevAux : Nat → Nat → List Nat
  | _, 0 => []
  | 0, _ + 1 => []
  | f + 1, n + 1 => ((n + 1) % 10) :: digitsRevAux f ((n + 1) / 10)

/-- Little-endian decimal digits of `n` (`[]` for `0`). -/
def digitsRev (n : Nat) : List Nat := digitsRevAux n n

/-- Decimal digit to its character. -/
def toDigitChar (d : Nat) : Char := Char.ofNat (48 + d)

/-- Decimal rendering of a natural number; models Rust's `Display` for
unsigned values. -/
def natToString (n : Nat) : String :=
  if n = 0 then "0" else ⟨((digitsRev n).map toDigitChar).reverse⟩

/-- Decimal rendering of an `i64` as produced by Rust's `to_string()`. -/
def intToString (v : Int) : String :=
  if v < 0 then ⟨'-' :: (natToString v.natAbs).data⟩ else natToString v.natAbs

example : intToString 166 = "166" := by decide
example : intToString (-5) = "-5" := by decide
example : intToString 0 = "0" := by decide

/-- Truncation toward zero of a rational, the semantics of Rust's
`as i64` cast on a (finite, in-range) `f64`. -/
def ratTrunc (q : ℚ) : Int :=
  if 0 ≤ q then ⌊q⌋ else -⌊-q⌋

example : ratTrunc (663 / 4 : ℚ) = 165 := by norm_num [ratTrunc]
example : ratTrunc (-3 / 2 : ℚ) = -1 := by norm_num [ratTrunc]

/-- One pass of the curve scan in `HWMon::start_fan_control`'s worker:
iterate the curve points in ascending key order, pair each `(t_low, s_low)`
with its successor `(t_high, s_high)`, and on the first pair with
`t_low ≤ temp < t_high` return the interpolated duty percentage
`s_low + (s_high - s_low) * (temp - t_low) / (t_high - t_low)`.
`none` when no pair matches (then no `pwm1` write happens this tick). -/
def scanPercent : List (Int × ℚ) → Int → Option ℚ
  | (tl, sl) :: (th, sh) :: rest, temp =>
    if tl ≤ temp ∧ temp < th then
      some (sl + (sh - sl) * (((temp : ℚ) - (tl : ℚ)) / ((th : ℚ) - (tl : ℚ))))
    else scanPercent ((th, sh) :: rest) temp
  | _, _ => none

/-- One iteration of the fan-control worker loop (`hw_mon.rs:188-219`):
read the temperature (`get_gpu_temp(...).unwrap()` — `None` panics), scan
the curve, and on a match write `pwm = (255.0 * (percent / 100.0)) as i64`
to `pwm1` (`expect` — a rejected write panics). Returns the list of
hardware writes performed this tick. -/
def fanLoopTick (fs : FS) (w : WriteOk) (curve : List (Int × ℚ)) :
    RRes (List (String × String)) :=
  match get_gpu_temp fs with
  | .panicked => .panicked
  | .ok none => .panicked
  | .ok (some temp) =>
    match scanPercent curve temp with
    | none => .ok []
    | some pct =>
      let pwm := ratTrunc (255 * (pct / 100))
      if w "pwm1" (intToString pwm) then .ok [("pwm1", intToString pwm)]
      else .panicked

/-- The fan curve installed by `GpuConfig::new` (and used throughout the
spec's examples): `{20:0, 40:0, 60:50, 80:80, 100:100}` in ascending order. -/
def defaultCurve : List (Int × ℚ) :=
  [(20, 0), (40, 0), (60, 50), (80, 80), (100, 100)]

example : scanPercent defaultCurve 70 = some 65 := by norm_num [scanPercent, defaultCurve]

/-- Runtime state of one `HWMon` relevant to the claims: the
`fan_control: AtomicBool` flag and the live `fan_curve`. -/
structure MonState where
  fan_control : Bool
  fan_curve : List (Int × ℚ)
deriving DecidableEq, Repr

/-- Result of one `HWMon` method call that can touch hardware: the returned
value, the updated state, and the writes attempted (name, contents, accepted?). -/
structure Call (α : Type) where
  ret : α
  st : MonState
  writes : List (String × String × Bool)
deriving DecidableEq, Repr

/-- `HWMon::start_fan_control` (`hw_mon.rs:178-225`): if the flag is already
set, return `Ok` with no side effect; otherwise set the flag, then write
`"1"` to `pwm1_enable` — on success spawn the worker (spawn tracked by the
returned Bool), on failure return `PermissionDenied` (the flag stays set). -/
def start_fan_control (st : MonState) (w : WriteOk) :
    Call (Except HWMonError Unit × Bool) :=
  if st.fan_control then ⟨(.ok (), false), st, []⟩
  else
    let st' : MonState := { st with fan_control := true }
    if w "pwm1_enable" "1" then
      ⟨(.ok (), true), st', [("pwm1_enable", "1", true)]⟩
    else
      ⟨(.error .PermissionDenied, false), st', [("pwm1_enable", "1", false)]⟩

/-- `HWMon::stop_fan_control`: write `"2"` to `pwm1_enable`; on success clear
the flag, on failure `PermissionDenied` (flag unchanged). -/
def stop_fan_control (st : MonState) (w : WriteOk) :
    Call (Except HWMonError Unit) :=
  if w "pwm1_enable" "2" then
    ⟨.ok (), { st with fan_control := false }, [("pwm1_enable", "2", true)]⟩
  else
    ⟨.error .PermissionDenied, st, [("pwm1_enable", "2", false)]⟩

/-- `HWMon::get_fan_control`: snapshot of (enabled flag, current curve). -/
def get_fan_control (st : MonState) : Bool × List (Int × ℚ) :=
  (st.fan_control, st.fan_curve)

/-- `HWMon::set_fan_curve`: replace the live curve wholesale. -/
def set_fan_curve (st : MonState) (curve : List (Int × ℚ)) : MonState :=
  { st with fan_curve := curve }

/-- Two's-complement wrap-around of an unbounded integer into the `i64`
range, the semantics of Rust's release-mode `i64` multiplication overflow
(a debug build would abort instead; see the note on `set_power_cap`). -/
def wrapI64 (v : Int) : Int :=
  (v + 2 ^ 63) % 2 ^ 64 - 2 ^ 63

/-- Inside the `i64` range the wrap is the identity. -/
lemma wrapI64_eq_of_range (v : Int) (h1 : -(2 ^ 63) ≤ v) (h2 : v ≤ 2 ^ 63 - 1) :
    wrapI64 v = v := by
  unfold wrapI64
  rw [Int.emod_eq_of_lt (by omega) (by omega)]
  ring

/-- `HWMon::set_power_cap` (`hw_mon.rs:140-156`): `Unsupported` when
`get_power_cap_max` is `None`; `InvalidValue` when `cap` exceeds the
maximum; otherwise write `cap * 1000000` to `power1_cap`, `Ok` on a
successful write and `PermissionDenied` on a rejected one. Panics when
`get_power_cap_max` panics (unparseable `power1_cap_max`). The `i64`
product `cap * 1000000` wraps around when it overflows (release-build
semantics; a debug build would abort at the multiplication — either way
the exact product is neither computed nor written). -/
def set_power_cap (fs : FS) (w : WriteOk) (cap : Int) :
    RRes (Except HWMonError Unit × List (String × String × Bool)) :=
  match get_power_cap_max fs with
  | .panicked => .panicked
  | .ok none => .ok (.error .Unsupported, [])
  | .ok (some mx) =>
    if cap > mx then .ok (.error .InvalidValue, [])
    else
      let raw := wrapI64 (cap * 1000000)
      if w "power1_cap" (intToString raw) then
        .ok (.ok (), [("power1_cap", intToString raw, true)])
      else
        .ok (.error .PermissionDenied, [("power1_cap", intToString raw, false)])

/-- `HWMon::new` (`hw_mon.rs:31-54`): build the state with the flag cleared;
if `fan_control_enabled`, call `start_fan_control().unwrap()` — an `Err`
panics; if a power cap is given, call `set_power_cap` and ignore its
result (a panic inside it still propagates). -/
def hwmonNew (fs : FS) (w : WriteOk) (fan_control_enabled : Bool)
    (fan_curve : List (Int × ℚ)) (power_cap : Option Int) : RRes MonState :=
  let st0 : MonState := ⟨false, fan_curve⟩
  let afterFan : RRes MonState :=
    if fan_control_enabled then
      match start_fan_control st0 w with
      | ⟨(.ok _, _), st1, _⟩ => .ok st1
      | ⟨(.error _, _), _, _⟩ => .panicked
    else .ok st0
  match afterFan with
  | .panicked => .panicked
  | .ok st1 =>
    match power_cap with
    | none => .ok st1
    | some cap =>
      match set_power_cap fs w cap with
      | .panicked => .panicked
      | .ok _ => .ok st1

/-! ### Concrete hwmon directories and helper lemmas -/

/-- A hwmon directory whose only readable file is `temp1_input = "70000"`
(70 °C in millidegrees). -/
def fsTemp70 : FS := fun f => if f = "temp1_input" then some "70000" else none

/-- A hwmon directory where `temp1_input` exists but does not parse. -/
def fsTempAbc : FS := fun f => if f = "temp1_input" then some "abc" else none

/-- A hwmon directory whose only readable file is
`power1_cap_max = "150000000"` (150 W in microwatts). -/
def fsCapMax150 : FS :=
  fun f => if f = "power1_cap_max" then some "150000000" else none

/-- A hwmon directory with no readable files at all. -/
def fsEmpty : FS := fun _ => none

/-- A device that accepts every hardware write. -/
def acceptAll : WriteOk := fun _ _ => true

/-- A device that rejects every hardware write. -/
def rejectAll : WriteOk := fun _ _ => false

lemma get_gpu_temp_fsTemp70 : get_gpu_temp fsTemp70 = .ok (some 70) := by decide

lemma scanPercent_default_70 : scanPercent defaultCurve 70 = some 65 := by
  norm_num [scanPercent, defaultCurve]

lemma ratTrunc_255_mul_65_div_100 : ratTrunc (255 * ((65 : ℚ) / 100)) = 165 := by
  norm_num [ratTrunc]

lemma fanLoopTick_fsTemp70 :
    fanLoopTick fsTemp70 acceptAll defaultCurve = .ok [("pwm1", "165")] := by
  rw [fanLoopTick, get_gpu_temp_fsTemp70]
  simp only [scanPercent_default_70, ratTrunc_255_mul_65_div_100]
  decide

/-- Int division by 1000 twice is division by 10⁶ (Rust `/` truncates toward
zero in both readings). -/
lemma tdiv_thousand_thousand (v : Int) : (v.tdiv 1000).tdiv 1000 = v.tdiv 1000000 := by
  cases v with
  | ofNat m =>
    show Int.ofNat (m / 1000 / 1000) = Int.ofNat (m / 1000000)
    rw [Nat.div_div_eq_div_mul]
  | negSucc m =>
    show (-Int.ofNat (m.succ / 1000)).tdiv 1000 = -Int.ofNat (m.succ / 1000000)
    rw [Int.neg_tdiv]
    show -Int.ofNat (m.succ / 1000 / 1000) = -Int.ofNat (m.succ / 1000000)
    rw [Nat.div_div_eq_div_mul]

/-- Spelled-out behavior of the common sensor-read shape. -/
lemma readSensorRaw_of_none {fs : FS} {file : String} (h : fs file = none) :
    readSensorRaw fs file = .ok none := by
  rw [readSensorRaw, h]

lemma readSensorRaw_of_unparseable {fs : FS} {file : String} {c : String}
    (h : fs file = some c) (hp : parseI64 (rustTrim c) = none) :
    readSensorRaw fs file = .panicked := by
  rw [readSensorRaw, h]; simp [hp]

lemma readSensorRaw_of_parse {fs : FS} {file : String} {c : String} {v : Int}
    (h : fs file = some c) (hp : parseI64 (rustTrim c) = some v) :
    readSensorRaw fs file = .ok (some v) := by
  rw [readSensorRaw, h]; simp [hp]

/-- Ordering of curve keys, the `BTreeMap` iteration invariant. -/
def CurveSorted (curve : List (Int × ℚ)) : Prop :=
  List.Chain' (fun a b => a.1 < b.1) curve

instance (curve : List (Int × ℚ)) : Decidable (CurveSorted curve) :=
  inferInstanceAs (Decidable (List.Chain' _ curve))

/-- In a sorted nonempty curve the first key bounds the last from below. -/
lemma chain'_head_le_getLast :
    ∀ (l : List (Int × ℚ)) (a : Int × ℚ), CurveSorted (a :: l) →
      a.1 ≤ ((a :: l).getLast (by simp)).1
  | [], _, _ => le_refl _
  | b :: l, a, h => by
    have hab : a.1 < b.1 := (List.chain'_cons.mp h).1
    have ht : CurveSorted (b :: l) := (List.chain'_cons.mp h).2
    have := chain'_head_le_getLast l b ht
    simpa [List.getLast_cons] using le_trans (le_of_lt hab) this

/-- A temperature below the first key matches no segment. -/
lemma scanPercent_none_of_lt_head :
    ∀ (curve : List (Int × ℚ)) (temp : Int), CurveSorted curve →
      (∀ p ∈ curve.head?, temp < p.1) → scanPercent curve temp = none
  | [], _, _, _ => rfl
  | [_], _, _, _ => rfl
  | (tl, sl) :: (th, sh) :: rest, temp, hch, hlt => by
    have h0 : temp < tl := hlt (tl, sl) rfl
    have h01 : tl < th := (List.chain'_cons.mp hch).1
    have htail : CurveSorted ((th, sh) :: rest) := (List.chain'_cons.mp hch).2
    have : scanPercent ((th, sh) :: rest) temp = none :=
      scanPercent_none_of_lt_head ((th, sh) :: rest) temp htail
        (by intro p hp; simp at hp; rw [← hp]; exact lt_trans h0 h01)
    simpa [scanPercent, not_le.mpr h0] using this

/-- A temperature at or above the last key matches no segment. -/
lemma scanPercent_none_of_getLast_le :
    ∀ (curve : List (Int × ℚ)) (temp : Int), CurveSorted curve →
      (∀ p ∈ curve.getLast?, p.1 ≤ temp) → scanPercent curve temp = none
  | [], _, _, _ => rfl
  | [_], _, _, _ => rfl
  | (tl, sl) :: (th, sh) :: rest, temp, hch, hle => by
    have htail : CurveSorted ((th, sh) :: rest) := (List.chain'_cons.mp hch).2
    have hlast : ((th, sh) :: rest).getLast (by simp) =
        (((tl, sl) :: (th, sh) :: rest).getLast (by simp)) := by
      simp [List.getLast_cons]
    have hge : th ≤ temp := by
      have h1 : th ≤ (((th, sh) :: rest).getLast (by simp)).1 :=
        chain'_head_le_getLast rest (th, sh) htail
      have h2 : (((tl, sl) :: (th, sh) :: rest).getLast (by simp)).1 ≤ temp := by
        apply hle
        rw [List.getLast?_eq_getLast _ (by simp)]
        rfl
      rw [hlast] at h1
      exact le_trans h1 h2
    have : scanPercent ((th, sh) :: rest) temp = none :=
      scanPercent_none_of_getLast_le ((th, sh) :: rest) temp htail
        (by
          intro p hp
          apply hle
          rwa [List.getLast?_eq_getLast _ (by simp), ← hlast,
            ← List.getLast?_eq_getLast _ (by simp)])
    have hnomatch : ¬(tl ≤ temp ∧ temp < th) := by
      rintro ⟨-, h⟩; exact absurd hge (not_le.mpr h)
    simpa [scanPercent, hnomatch] using this

/-- Extra concrete directories used by witnesses. -/
def fs100 : FS := fun f => if f = "temp1_input" then some "100000" else none

def fsFreq : FS := fun f => if f = "freq1_input" then some "1500000000" else none

/-! ### Claim theorems -/

/-- C1, counterexample: for the curve `{20:0, 40:0, 60:50, 80:80, 100:100}`
and measured temperature 70 (`temp1_input = "70000"`), one loop iteration
computes the interpolated duty percent 65.0 but writes `pwm1 = "165"`,
not `"166"`: the cast `(255.0 * (percent / 100.0)) as i64` truncates
165.75 toward zero instead of rounding. -/
theorem lact_c1_counterexample :
    scanPercent defaultCurve 70 = some 65 ∧
    fanLoopTick fsTemp70 acceptAll defaultCurve = .ok [("pwm1", "165")] ∧
    (RRes.ok [("pwm1", "165")] : RRes (List (String × String))) ≠ .ok [("pwm1", "166")] :=
  ⟨scanPercent_default_70, fanLoopTick_fsTemp70, by decide⟩

/-- C1, amended: for the fan curve `{20:0, 40:0, 60:50, 80:80, 100:100}` and
a measured temperature of 70, one iteration of the control loop computes an
interpolated duty percent of 65.0 and writes the duty value
`pwm = trunc(255 × 65.0 / 100) = 165` to the hardware. -/
theorem lact_c1 :
    scanPercent defaultCurve 70 = some 65 ∧
    ratTrunc (255 * ((65 : ℚ) / 100)) = 165 ∧
    fanLoopTick fsTemp70 acceptAll defaultCurve = .ok [("pwm1", "165")] :=
  ⟨scanPercent_default_70, ratTrunc_255_mul_65_div_100, fanLoopTick_fsTemp70⟩

/-- C2, counterexample: a sensor whose control file exists but whose contents
fail to parse as an integer does not return the absent value — the read
panics (`parse().unwrap()`), so the operation aborts. -/
theorem lact_c2_counterexample :
    get_gpu_temp fsTempAbc = .panicked ∧ get_gpu_temp fsTempAbc ≠ .ok none := by
  decide

/-- C2, amended: for every sensor read operation, if the corresponding
control file does not exist the operation returns the absent value (None);
but if the file exists and its contents fail to parse as an integer, the
operation panics (aborts) instead of returning the absent value. -/
theorem lact_c2 : ∀ fs : FS,
    ((fs "fan1_max" = none → get_fan_max_speed fs = .ok none) ∧
      (∀ c, fs "fan1_max" = some c → parseI64 (rustTrim c) = none →
        get_fan_max_speed fs = .panicked)) ∧
    ((fs "fan1_input" = none → get_fan_speed fs = .ok none) ∧
      (∀ c, fs "fan1_input" = some c → parseI64 (rustTrim c) = none →
        get_fan_speed fs = .panicked)) ∧
    ((fs "freq2_input" = none → get_mem_freq fs = .ok none) ∧
      (∀ c, fs "freq2_input" = some c → parseI64 (rustTrim c) = none →
        get_mem_freq fs = .panicked)) ∧
    ((fs "freq1_input" = none → get_gpu_freq fs = .ok none) ∧
      (∀ c, fs "freq1_input" = some c → parseI64 (rustTrim c) = none →
        get_gpu_freq fs = .panicked)) ∧
    ((fs "temp1_input" = none → get_gpu_temp fs = .ok none) ∧
      (∀ c, fs "temp1_input" = some c → parseI64 (rustTrim c) = none →
        get_gpu_temp fs = .panicked)) ∧
    ((fs "in0_input" = none → get_voltage fs = .ok none) ∧
      (∀ c, fs "in0_input" = some c → parseI64 (rustTrim c) = none →
        get_voltage fs = .panicked)) ∧
    ((fs "power1_cap_max" = none → get_power_cap_max fs = .ok none) ∧
      (∀ c, fs "power1_cap_max" = some c → parseI64 (rustTrim c) = none →
        get_power_cap_max fs = .panicked)) ∧
    ((fs "power1_cap" = none → get_power_cap fs = .ok none) ∧
      (∀ c, fs "power1_cap" = some c → parseI64 (rustTrim c) = none →
        get_power_cap fs = .panicked)) ∧
    ((fs "power1_average" = none → get_power_avg fs = .ok none) ∧
      (∀ c, fs "power1_average" = some c → parseI64 (rustTrim c) = none →
        get_power_avg fs = .panicked)) := by
  intro fs
  refine ⟨⟨?_, ?_⟩, ⟨?_, ?_⟩, ⟨?_, ?_⟩, ⟨?_, ?_⟩, ⟨?_, ?_⟩, ⟨?_, ?_⟩, ⟨?_, ?_⟩,
    ⟨?_, ?_⟩, ⟨?_, ?_⟩⟩ <;>
    first
    | (intro h
       simp [get_fan_max_speed, get_fan_speed, get_mem_freq, get_gpu_freq,
         get_gpu_temp, get_voltage, get_power_cap_max, get_power_cap,
         get_power_avg, readSensorRaw_of_none h, RRes.map])
    | (intro c h hp
       simp [get_fan_max_speed, get_fan_speed, get_mem_freq, get_gpu_freq,
         get_gpu_temp, get_voltage, get_power_cap_max, get_power_cap,
         get_power_avg, readSensorRaw_of_unparseable h hp, RRes.map])

/-- C2, witness for the amended theorem at concrete directories. -/
theorem lact_c2_witness :
    get_gpu_temp fsEmpty = .ok none ∧ get_gpu_temp fsTempAbc = .panicked := by
  obtain ⟨-, -, -, -, ⟨he, -⟩, -⟩ := lact_c2 fsEmpty
  obtain ⟨-, -, -, -, ⟨-, ha⟩, -⟩ := lact_c2 fsTempAbc
  exact ⟨he rfl, ha "abc" rfl (by decide)⟩

/-- C3: the code contradicts the specified skip-and-retry policy. On a tick
where the temperature read returns absent (`temp1_input` unreadable), the
worker body evaluates `get_gpu_temp().unwrap()` on `None` and panics,
terminating the worker thread, instead of skipping the tick; it performs no
hardware write because it never reaches the curve scan. -/
theorem lact_c3 :
    fanLoopTick fsEmpty acceptAll defaultCurve = .panicked ∧
    get_gpu_temp fsEmpty = .ok none := by
  decide

/-- C4, counterexample: the claim asserts that past the validation guards
`set_power_cap(target)` writes `target × 10⁶` for every target value, but
the `i64` product `cap * 1000000` overflows for targets below
−9223372036854 W: with a 150 W maximum and target −10¹³ (a valid `i64`
that passes the `cap ≤ max` guard), the product −10¹⁹ wraps to
8446744073709551616, which is what the program writes — not
`target × 10⁶ = −10000000000000000000`. -/
theorem lact_c4_counterexample :
    set_power_cap fsCapMax150 acceptAll (-(10 ^ 13)) =
      .ok (.ok (), [("power1_cap", "8446744073709551616", true)]) ∧
    intToString (-(10 ^ 13) * 1000000) = "-10000000000000000000" ∧
    ("8446744073709551616" : String) ≠ "-10000000000000000000" := by
  exact ⟨rfl, by decide, by decide⟩

/-- C4, amended: for every target value, `set_power_cap(target)` fails with
Unsupported when the maximum-cap sensor is absent; fails with InvalidValue
when target exceeds the reported maximum; fails with PermissionDenied when
the underlying file write is rejected; otherwise writes the two's-complement
`i64` value of `target × 10⁶` — equal to `target × 10⁶` whenever that
product is within the `i64` range — to `power1_cap` and succeeds exactly
when the write succeeds. -/
theorem lact_c4 : ∀ (fs : FS) (w : WriteOk) (cap : Int),
    (get_power_cap_max fs = .ok none →
      set_power_cap fs w cap = .ok (.error .Unsupported, [])) ∧
    (∀ mx, get_power_cap_max fs = .ok (some mx) → cap > mx →
      set_power_cap fs w cap = .ok (.error .InvalidValue, [])) ∧
    (∀ mx, get_power_cap_max fs = .ok (some mx) → cap ≤ mx →
      w "power1_cap" (intToString (wrapI64 (cap * 1000000))) = true →
      set_power_cap fs w cap =
        .ok (.ok (), [("power1_cap", intToString (wrapI64 (cap * 1000000)), true)])) ∧
    (∀ mx, get_power_cap_max fs = .ok (some mx) → cap ≤ mx →
      w "power1_cap" (intToString (wrapI64 (cap * 1000000))) = false →
      set_power_cap fs w cap =
        .ok (.error .PermissionDenied,
          [("power1_cap", intToString (wrapI64 (cap * 1000000)), false)])) ∧
    (-(2 ^ 63) ≤ cap * 1000000 → cap * 1000000 ≤ 2 ^ 63 - 1 →
      wrapI64 (cap * 1000000) = cap * 1000000) := by
  intro fs w cap
  refine ⟨?_, ?_, ?_, ?_, wrapI64_eq_of_range _⟩
  · intro h; rw [set_power_cap, h]
  · intro mx h hgt; rw [set_power_cap, h]; simp [hgt]
  · intro mx h hle hw; rw [set_power_cap, h]; simp [not_lt.mpr hle, hw]
  · intro mx h hle hw; rw [set_power_cap, h]; simp [not_lt.mpr hle, hw]

/-- C4, witness: with `power1_cap_max = "150000000"` a cap of 200 W fails
with InvalidValue; with no `power1_cap_max` file, any cap fails with
Unsupported; a cap of 100 W (product in `i64` range) writes exactly
100000000. -/
theorem lact_c4_witness :
    set_power_cap fsCapMax150 rejectAll 200 = .ok (.error .InvalidValue, []) ∧
    set_power_cap fsEmpty acceptAll 100 = .ok (.error .Unsupported, []) ∧
    set_power_cap fsCapMax150 acceptAll 100 =
      .ok (.ok (), [("power1_cap", intToString (wrapI64 (100 * 1000000)), true)]) ∧
    intToString (wrapI64 (100 * 1000000)) = "100000000" :=
  ⟨(lact_c4 fsCapMax150 rejectAll 200).2.1 150 (by decide) (by decide),
    (lact_c4 fsEmpty acceptAll 100).1 (by decide),
    (lact_c4 fsCapMax150 acceptAll 100).2.2.1 150 (by decide) (by decide) (by decide),
    by decide⟩

/-- C5: unit conversion of successful sensor reads is exact truncating
integer division: clock readings divide the raw value by 10⁶, power
readings divide by 10⁶, temperature divides by 1000, and fan speeds /
voltage are returned verbatim; in particular `power1_cap_max` containing
`"150000000"` yields `get_power_cap_max = 150`. -/
theorem lact_c5 :
    (∀ (fs : FS) (c : String) (v : Int), fs "freq1_input" = some c →
      parseI64 (rustTrim c) = some v →
      get_gpu_freq fs = .ok (some (v.tdiv 1000000))) ∧
    (∀ (fs : FS) (c : String) (v : Int), fs "freq2_input" = some c →
      parseI64 (rustTrim c) = some v →
      get_mem_freq fs = .ok (some (v.tdiv 1000000))) ∧
    (∀ (fs : FS) (c : String) (v : Int), fs "power1_cap" = some c →
      parseI64 (rustTrim c) = some v →
      get_power_cap fs = .ok (some (v.tdiv 1000000))) ∧
    (∀ (fs : FS) (c : String) (v : Int), fs "power1_cap_max" = some c →
      parseI64 (rustTrim c) = some v →
      get_power_cap_max fs = .ok (some (v.tdiv 1000000))) ∧
    (∀ (fs : FS) (c : String) (v : Int), fs "power1_average" = some c →
      parseI64 (rustTrim c) = some v →
      get_power_avg fs = .ok (some (v.tdiv 1000000))) ∧
    (∀ (fs : FS) (c : String) (v : Int), fs "temp1_input" = some c →
      parseI64 (rustTrim c) = some v →
      get_gpu_temp fs = .ok (some (v.tdiv 1000))) ∧
    (∀ (fs : FS) (c : String) (v : Int), fs "fan1_max" = some c →
      parseI64 (rustTrim c) = some v → get_fan_max_speed fs = .ok (some v)) ∧
    (∀ (fs : FS) (c : String) (v : Int), fs "fan1_input" = some c →
      parseI64 (rustTrim c) = some v → get_fan_speed fs = .ok (some v)) ∧
    (∀ (fs : FS) (c : String) (v : Int), fs "in0_input" = some c →
      parseI64 (rustTrim c) = some v → get_voltage fs = .ok (some v)) ∧
    get_power_cap_max fsCapMax150 = .ok (some 150) := by
  refine ⟨?_, ?_, ?_, ?_, ?_, ?_, ?_, ?_, ?_, by decide⟩ <;>
    intro fs c v h hp <;>
    simp [get_gpu_freq, get_mem_freq, get_power_cap, get_power_cap_max,
      get_power_avg, get_gpu_temp, get_fan_max_speed, get_fan_speed,
      get_voltage, readSensorRaw_of_parse h hp, RRes.map,
      tdiv_thousand_thousand]

/-- C5, witness: a 1.5 GHz core clock read back from `freq1_input`. -/
theorem lact_c5_witness : get_gpu_freq fsFreq = .ok (some 1500) := by
  have h := lact_c5.1 fsFreq "1500000000" 1500000000 rfl (by decide)
  simpa using h

/-- C6: for every sorted fan curve and measured temperature below the
curve's first key or at/above its last key, one iteration of the control
loop finds no matching segment (`scanPercent = none`) and performs no
`pwm1` write that tick. -/
theorem lact_c6 : ∀ (fs : FS) (w : WriteOk) (curve : List (Int × ℚ)) (temp : Int),
    CurveSorted curve →
    get_gpu_temp fs = .ok (some temp) →
    ((∀ p ∈ curve.head?, temp < p.1) ∨ (∀ p ∈ curve.getLast?, p.1 ≤ temp)) →
    scanPercent curve temp = none ∧ fanLoopTick fs w curve = .ok [] := by
  intro fs w curve temp hs ht hd
  have hnone : scanPercent curve temp = none := by
    cases hd with
    | inl h => exact scanPercent_none_of_lt_head curve temp hs h
    | inr h => exact scanPercent_none_of_getLast_le curve temp hs h
  refine ⟨hnone, ?_⟩
  rw [fanLoopTick, ht]
  simp [hnone]

/-- C6, witness: the default curve with temperature 100 (at the last key)
produces no segment match and no write. -/
theorem lact_c6_witness :
    scanPercent defaultCurve 100 = none ∧
    fanLoopTick fs100 acceptAll defaultCurve = .ok [] :=
  lact_c6 fs100 acceptAll defaultCurve 100
    (by norm_num [CurveSorted, defaultCurve, List.chain'_cons]) (by decide)
    (Or.inr (by
      intro p hp
      have h : defaultCurve.getLast? = some ((100 : Int), (100 : ℚ)) := rfl
      rw [h, Option.mem_some_iff] at hp
      subst hp
      norm_num))

/-- C9: when the enabled flag is false, `start_fan_control` sets the flag
before attempting the `pwm1_enable` write; when that write fails it returns
PermissionDenied with the flag left true (state not restored), a subsequent
`start_fan_control` returns success with no hardware write and no worker
spawn, and `get_fan_control` reports enabled = true. -/
theorem lact_c9 : ∀ (st : MonState) (w : WriteOk),
    st.fan_control = false →
    w "pwm1_enable" "1" = false →
    (start_fan_control st w).ret.1 = .error .PermissionDenied ∧
    (start_fan_control st w).st.fan_control = true ∧
    (start_fan_control st w).ret.2 = false ∧
    (start_fan_control st w).writes = [("pwm1_enable", "1", false)] ∧
    (∀ w2 : WriteOk, start_fan_control (start_fan_control st w).st w2 =
      ⟨(.ok (), false), (start_fan_control st w).st, []⟩) ∧
    (get_fan_control (start_fan_control st w).st).1 = true := by
  intro st w h0 hw
  simp [start_fan_control, get_fan_control, h0, hw]

/-- C9, witness: a monitor with the flag clear and a device rejecting all
writes. -/
theorem lact_c9_witness :
    (start_fan_control ⟨false, defaultCurve⟩ rejectAll).ret.1 =
      .error .PermissionDenied ∧
    (start_fan_control ⟨false, defaultCurve⟩ rejectAll).st.fan_control = true ∧
    (start_fan_control (start_fan_control ⟨false, defaultCurve⟩ rejectAll).st
      acceptAll).ret.1 = .ok () := by
  obtain ⟨h1, h2, -, -, h5, -⟩ := lact_c9 ⟨false, defaultCurve⟩ rejectAll rfl rfl
  exact ⟨h1, h2, by rw [h5 acceptAll]⟩

/-- C10: `HWMon::new` with fan control enabled unwraps `start_fan_control`,
so construction panics when the `pwm1_enable` write is rejected, instead of
returning an error; whereas a `set_power_cap` failure during construction
is ignored and construction still succeeds (with the flag reflecting the
fan-control outcome). -/
theorem lact_c10 :
    (∀ (fs : FS) (w : WriteOk) (curve : List (Int × ℚ)) (cap : Option Int),
      w "pwm1_enable" "1" = false → hwmonNew fs w true curve cap = .panicked) ∧
    (∀ (fs : FS) (w : WriteOk) (curve : List (Int × ℚ)) (cap : Int)
      (e : HWMonError) (l : List (String × String × Bool)),
      set_power_cap fs w cap = .ok (.error e, l) →
      hwmonNew fs w false curve (some cap) = .ok ⟨false, curve⟩) ∧
    (∀ (fs : FS) (w : WriteOk) (curve : List (Int × ℚ)) (cap : Int)
      (e : HWMonError) (l : List (String × String × Bool)),
      w "pwm1_enable" "1" = true →
      set_power_cap fs w cap = .ok (.error e, l) →
      hwmonNew fs w true curve (some cap) = .ok ⟨true, curve⟩) := by
  refine ⟨?_, ?_, ?_⟩
  · intro fs w curve cap hw
    cases cap <;> simp [hwmonNew, start_fan_control, hw]
  · intro fs w curve cap e l hcap
    simp [hwmonNew, hcap]
  · intro fs w curve cap e l hw hcap
    simp [hwmonNew, start_fan_control, hw, hcap]

/-- C10, witness: a device rejecting all writes panics construction when fan
control was persisted enabled; a device with no `power1_cap_max` ignores the
Unsupported error from `set_power_cap` and construction succeeds. -/
theorem lact_c10_witness :
    hwmonNew fsEmpty rejectAll true defaultCurve none = .panicked ∧
    hwmonNew fsEmpty acceptAll false defaultCurve (some 100) =
      .ok ⟨false, defaultCurve⟩ :=
  ⟨lact_c10.1 fsEmpty rejectAll defaultCurve none rfl,
    lact_c10.2.1 fsEmpty acceptAll defaultCurve 100 .Unsupported [] rfl⟩

/-! ### Configuration model (`config.rs`) -/

/-- `GpuIdentifier` from `config.rs` (the spec's DeviceIdentifier): PCI bus
address, optional board-model and chip-model strings, and the current
enumeration path. -/
structure GpuIdentifier where
  pci_id : String
  card_model : Option String
  gpu_model : Option String
  path : String
deriving DecidableEq, Repr

/-- The hand-written `PartialEq for GpuIdentifier`: compares `pci_id`,
`gpu_model` and `card_model`; the `path` field is not inspected. -/
def gpuIdentifierEq (a b : GpuIdentifier) : Bool :=
  a.pci_id == b.pci_id && a.gpu_model == b.gpu_model && a.card_model == b.card_model

/-- C7: `GpuIdentifier` equality holds iff bus address and both model
strings agree; the enumeration path is excluded, so identifiers equal on
those three fields but with different paths still compare equal. -/
theorem lact_c7 :
    (∀ a b : GpuIdentifier, gpuIdentifierEq a b = true ↔
      (a.pci_id = b.pci_id ∧ a.card_model = b.card_model ∧
        a.gpu_model = b.gpu_model)) ∧
    (∀ a b : GpuIdentifier, a.pci_id = b.pci_id → a.card_model = b.card_model →
      a.gpu_model = b.gpu_model → a.path ≠ b.path → gpuIdentifierEq a b = true) := by
  constructor
  · intro a b
    simp only [gpuIdentifierEq, Bool.and_eq_true, beq_iff_eq]
    tauto
  · intro a b h1 h2 h3 _
    simp [gpuIdentifierEq, h1, h2, h3]

/-- C7, witness: two identifiers identical except for the enumeration path
compare equal. -/
theorem lact_c7_witness :
    gpuIdentifierEq
      ⟨"0000:0b:00.0", some "Navi 10", some "RX 5700 XT", "/sys/class/drm/card0/device"⟩
      ⟨"0000:0b:00.0", some "Navi 10", some "RX 5700 XT", "/sys/class/drm/card1/device"⟩
      = true ∧
    ("/sys/class/drm/card0/device" : String) ≠ "/sys/class/drm/card1/device" :=
  ⟨lact_c7.2 _ _ rfl rfl rfl (by decide), by decide⟩

/-! ### Decimal print/parse round trip (used by the config round-trip) -/

/-- Value of a little-endian digit list. -/
def ofDigitsRev : List Nat → Nat
  | [] => 0
  | d :: ds => d + 10 * ofDigitsRev ds

lemma digitsRevAux_lt : ∀ (f n : Nat), ∀ d ∈ digitsRevAux f n, d < 10 := by
  intro f
  induction f with
  | zero =>
    intro n d hd
    cases n <;> simp [digitsRevAux] at hd
  | succ f ih =>
    intro n d hd
    cases n with
    | zero => simp [digitsRevAux] at hd
    | succ m =>
      simp only [digitsRevAux, List.mem_cons] at hd
      rcases hd with h | h
      · rw [h]; exact Nat.mod_lt _ (by norm_num)
      · exact ih _ _ h

lemma digitsRevAux_val : ∀ (f n : Nat), n ≤ f → ofDigitsRev (digitsRevAux f n) = n := by
  intro f
  induction f with
  | zero =>
    intro n h
    interval_cases n
    rfl
  | succ f ih =>
    intro n h
    cases n with
    | zero => rfl
    | succ m =>
      have hd : (m + 1) / 10 ≤ f := by
        have h1 : (m + 1) / 10 < m + 1 := Nat.div_lt_self (Nat.succ_pos m) (by norm_num)
        omega
      simp only [digitsRevAux, ofDigitsRev, ih _ hd]
      exact Nat.mod_add_div (m + 1) 10

lemma digitsRev_val (n : Nat) : ofDigitsRev (digitsRev n) = n :=
  digitsRevAux_val n n le_rfl

lemma digitsRev_lt (n : Nat) : ∀ d ∈ digitsRev n, d < 10 := digitsRevAux_lt n n

lemma digitsRev_ne_nil (n : Nat) (h : n ≠ 0) : digitsRev n ≠ [] := by
  intro hc
  have hv := digitsRev_val n
  rw [hc] at hv
  exact h hv.symm

lemma digitVal_toDigitChar (d : Nat) (h : d < 10) : digitVal (toDigitChar d) = some d := by
  interval_cases d <;> decide

lemma toDigitChar_ne_sign (d : Nat) (h : d < 10) :
    toDigitChar d ≠ '-' ∧ toDigitChar d ≠ '+' := by
  interval_cases d <;> exact ⟨by decide, by decide⟩

lemma digitsAcc_append (l₁ l₂ : List Char) (acc : Nat) :
    digitsAcc (l₁ ++ l₂) acc =
      match digitsAcc l₁ acc with
      | some m => digitsAcc l₂ m
      | none => none := by
  induction l₁ generalizing acc with
  | nil => rfl
  | cons c cs ih =>
    simp only [List.cons_append, digitsAcc]
    cases digitVal c with
    | none => rfl
    | some d => exact ih _

lemma digitsAcc_rev_map (ds : List Nat) (hlt : ∀ d ∈ ds, d < 10) (acc : Nat) :
    digitsAcc ((ds.map toDigitChar).reverse) acc =
      some (acc * 10 ^ ds.length + ofDigitsRev ds) := by
  induction ds generalizing acc with
  | nil => simp [digitsAcc, ofDigitsRev]
  | cons d ds ih =>
    have hd : d < 10 := hlt d (by simp)
    have hds : ∀ x ∈ ds, x < 10 := fun x hx => hlt x (by simp [hx])
    simp only [List.map_cons, List.reverse_cons]
    rw [digitsAcc_append, ih hds acc]
    simp only [digitsAcc, digitVal_toDigitChar d hd, ofDigitsRev, List.length_cons]
    congr 1
    ring

lemma natToString_data (n : Nat) (hn : n ≠ 0) :
    (natToString n).data = ((digitsRev n).map toDigitChar).reverse := by
  simp [natToString, hn]

lemma natToString_parse_core (n : Nat) (hn : n ≠ 0) :
    splitSign ((natToString n).data) = (false, (natToString n).data) ∧
    digitsAcc ((natToString n).data) 0 = some n ∧
    (natToString n).data ≠ [] := by
  rw [natToString_data n hn]
  have hne : ((digitsRev n).map toDigitChar).reverse ≠ [] := by
    simp [digitsRev_ne_nil n hn]
  obtain ⟨c, cs, hcons⟩ := List.exists_cons_of_ne_nil hne
  have hcmem : c ∈ ((digitsRev n).map toDigitChar).reverse := by
    rw [hcons]; exact List.mem_cons_self _ _
  rw [List.mem_reverse, List.mem_map] at hcmem
  obtain ⟨d, hdmem, hdc⟩ := hcmem
  have hd10 : d < 10 := digitsRev_lt n d hdmem
  obtain ⟨hne1, hne2⟩ := toDigitChar_ne_sign d hd10
  subst hdc
  refine ⟨?_, ?_, hne⟩
  · rw [hcons]
    simp only [splitSign, if_neg hne1, if_neg hne2]
  · rw [digitsAcc_rev_map _ (digitsRev_lt n), Nat.zero_mul, Nat.zero_add, digitsRev_val]

lemma parseI64_natToString (n : Nat) (h : n < 2 ^ 63) :
    parseI64 (natToString n) = some (n : Int) := by
  by_cases hn : n = 0
  · subst hn; decide
  · obtain ⟨hsplit, hacc, hne⟩ := natToString_parse_core n hn
    rw [parseI64, hsplit]
    obtain ⟨c, cs, hcons⟩ := List.exists_cons_of_ne_nil hne
    rw [hcons] at hacc ⊢
    simp only [hacc]
    have h1 : -(2 ^ 63 : Int) ≤ (n : Int) := by
      have h0 : (0 : Int) ≤ (n : Int) := Int.ofNat_nonneg n
      omega
    have h2 : (n : Int) ≤ 2 ^ 63 - 1 := by
      have h0 : (n : Int) < 2 ^ 63 := by exact_mod_cast h
      omega
    simp [h1, h2]
    all_goals omega

/-- Printing an in-range `i64` and parsing it back is the identity. -/
lemma parseI64_intToString (v : Int) (h1 : -(2 ^ 63) ≤ v) (h2 : v ≤ 2 ^ 63 - 1) :
    parseI64 (intToString v) = some v := by
  by_cases hv : v < 0
  · have hna : v.natAbs ≠ 0 := by
      intro hc
      rw [Int.natAbs_eq_zero] at hc
      omega
    obtain ⟨hsplit, hacc, hne⟩ := natToString_parse_core v.natAbs hna
    have hdata : (intToString v).data = '-' :: (natToString v.natAbs).data := by
      simp [intToString, hv]
    obtain ⟨c, cs, hcons⟩ := List.exists_cons_of_ne_nil hne
    rw [hcons] at hacc
    have hss : splitSign ('-' :: c :: cs) = (true, c :: cs) := by
      simp [splitSign]
    rw [parseI64, hdata, hcons, hss]
    simp only [hacc]
    have hval : -((v.natAbs : Nat) : Int) = v := by
      rw [Int.ofNat_natAbs_of_nonpos (le_of_lt hv)]
      ring
    rw [hval]
    simp [h1, h2]
    all_goals omega
  · push_neg at hv
    have hdata : intToString v = natToString v.natAbs := by
      simp [intToString, not_lt.mpr hv]
    rw [hdata]
    have hlt : v.natAbs < 2 ^ 63 := by
      have := Int.natAbs_of_nonneg hv
      omega
    rw [parseI64_natToString v.natAbs hlt, Int.natAbs_of_nonneg hv]

/-- `u32` map-key parsing as done by the JSON deserializer: plain decimal
digits within the `u32` range. -/
def parseU32 (s : String) : Option Nat :=
  match s.data with
  | [] => none
  | ds =>
    match digitsAcc ds 0 with
    | none => none
    | some n => if n < 2 ^ 32 then some n else none

/-- Printing a `u32` and parsing it back is the identity. -/
lemma parseU32_natToString (n : Nat) (h : n < 2 ^ 32) :
    parseU32 (natToString n) = some n := by
  by_cases hn : n = 0
  · subst hn; decide
  · obtain ⟨-, hacc, hne⟩ := natToString_parse_core n hn
    obtain ⟨c, cs, hcons⟩ := List.exists_cons_of_ne_nil hne
    rw [hcons] at hacc
    rw [parseU32, hcons]
    simp only [hacc]
    simp [h]
    all_goals omega

/-! ### JSON document model for the config round trip

`Config::save` runs the derived serde serializer through
`serde_json::to_string_pretty` and `Config::read_from_file` parses with
`serde_json::from_str`. The embedding models the serialized document at the
JSON value level (`serde_json::Value`); the text printer/parser pair of the
serde_json library is the identity on this level for finite values, and the
byte-faithful transport `fs::write`/`fs::read_to_string` is outside the
repository. `f64` curve values are modelled as exact rationals (serde_json
prints finite doubles in shortest round-tripping form). -/
inductive Json where
  | null : Json
  | bool (b : Bool) : Json
  | int (v : Int) : Json
  | num (q : ℚ) : Json
  | str (s : String) : Json
  | arr (elems : List Json) : Json
  | obj (entries : List (String × Json)) : Json

/-- Modelled from the spec: `power_profile` is "an enumerated value" with
default `Auto` (`PowerProfile` lives in `gpu_controller.rs`, which is not
part of the sources here); serde serializes a fieldless enum variant as its
name string. -/
inductive PowerProfile where
  | Auto
  | Low
  | High
deriving DecidableEq, Repr

/-- `GpuConfig` from `config.rs`; the `BTreeMap<i64, f64>` fan curve is its
ascending-key entry list. -/
structure GpuConfig where
  fan_control_enabled : Bool
  fan_curve : List (Int × ℚ)
  power_cap : Int
  power_profile : PowerProfile
  gpu_max_clock : Int
  gpu_max_voltage : Option Int
  vram_max_clock : Int
deriving DecidableEq, Repr

/-- `GpuConfig::new`: default curve `{20:0, 40:0, 60:50, 80:80, 100:100}`,
fan control disabled, power cap unset (-1), profile Auto. -/
def GpuConfig.new : GpuConfig :=
  ⟨false, defaultCurve, -1, .Auto, 0, none, 0⟩

/-- `Config` from `config.rs`; the `HashMap<u32, (GpuIdentifier, GpuConfig)>`
is its entry list, and `PathBuf` is the path string. -/
structure Config where
  gpu_configs : List (Nat × GpuIdentifier × GpuConfig)
  allow_online_update : Option Bool
  config_path : String
  group : String
deriving DecidableEq, Repr

/-- serde: `None ↦ null`, `Some a ↦` the encoding of `a`. -/
def encodeOpt {α : Type} (f : α → Json) : Option α → Json
  | none => .null
  | some a => f a

/-- serde: `null ↦ None`, anything else must decode as the inner type. -/
def decodeOpt {α : Type} (f : Json → Option α) : Json → Option (Option α)
  | .null => some none
  | j => (f j).map some

def decodeStr : Json → Option String
  | .str s => some s
  | _ => none

def decodeBool : Json → Option Bool
  | .bool b => some b
  | _ => none

def decodeInt : Json → Option Int
  | .int v => some v
  | _ => none

/-- An `f64` field accepts both float- and integer-formatted numbers. -/
def decodeNum : Json → Option ℚ
  | .num q => some q
  | .int v => some (v : ℚ)
  | _ => none

def encodePowerProfile : PowerProfile → Json
  | .Auto => .str "Auto"
  | .Low => .str "Low"
  | .High => .str "High"

def decodePowerProfile : Json → Option PowerProfile
  | .str "Auto" => some .Auto
  | .str "Low" => some .Low
  | .str "High" => some .High
  | _ => none

/-- A `BTreeMap<i64, f64>` serializes as an object with stringified keys. -/
def encodeCurve (curve : List (Int × ℚ)) : Json :=
  .obj (curve.map (fun p => (intToString p.1, Json.num p.2)))

def decodeCurve : Json → Option (List (Int × ℚ))
  | .obj entries =>
    entries.mapM (fun p =>
      match parseI64 p.1, decodeNum p.2 with
      | some k, some v => some (k, v)
      | _, _ => none)
  | _ => none

def encodeGpuIdentifier (a : GpuIdentifier) : Json :=
  .obj [("pci_id", .str a.pci_id),
        ("card_model", encodeOpt Json.str a.card_model),
        ("gpu_model", encodeOpt Json.str a.gpu_model),
        ("path", .str a.path)]

def decodeGpuIdentifier : Json → Option GpuIdentifier
  | .obj l =>
    (List.lookup "pci_id" l).bind fun j1 =>
    (decodeStr j1).bind fun pci =>
    (List.lookup "card_model" l).bind fun j2 =>
    (decodeOpt decodeStr j2).bind fun cm =>
    (List.lookup "gpu_model" l).bind fun j3 =>
    (decodeOpt decodeStr j3).bind fun gm =>
    (List.lookup "path" l).bind fun j4 =>
    (decodeStr j4).map fun p =>
    ⟨pci, cm, gm, p⟩
  | _ => none

def encodeGpuConfig (c : GpuConfig) : Json :=
  .obj [("fan_control_enabled", .bool c.fan_control_enabled),
        ("fan_curve", encodeCurve c.fan_curve),
        ("power_cap", .int c.power_cap),
        ("power_profile", encodePowerProfile c.power_profile),
        ("gpu_max_clock", .int c.gpu_max_clock),
        ("gpu_max_voltage", encodeOpt Json.int c.gpu_max_voltage),
        ("vram_max_clock", .int c.vram_max_clock)]

def decodeGpuConfig : Json → Option GpuConfig
  | .obj l =>
    (List.lookup "fan_control_enabled" l).bind fun j1 =>
    (decodeBool j1).bind fun fce =>
    (List.lookup "fan_curve" l).bind fun j2 =>
    (decodeCurve j2).bind fun curve =>
    (List.lookup "power_cap" l).bind fun j3 =>
    (decodeInt j3).bind fun pc =>
    (List.lookup "power_profile" l).bind fun j4 =>
    (decodePowerProfile j4).bind fun pp =>
    (List.lookup "gpu_max_clock" l).bind fun j5 =>
    (decodeInt j5).bind fun gmc =>
    (List.lookup "gpu_max_voltage" l).bind fun j6 =>
    (decodeOpt decodeInt j6).bind fun gmv =>
    (List.lookup "vram_max_clock" l).bind fun j7 =>
    (decodeInt j7).map fun vmc =>
    ⟨fce, curve, pc, pp, gmc, gmv, vmc⟩
  | _ => none

/-- One entry of the `HashMap<u32, (GpuIdentifier, GpuConfig)>`: stringified
key, tuple as a two-element array. -/
def encodeConfigEntry (e : Nat × GpuIdentifier × GpuConfig) : String × Json :=
  (natToString e.1, .arr [encodeGpuIdentifier e.2.1, encodeGpuConfig e.2.2])

def decodeConfigEntry (p : String × Json) : Option (Nat × GpuIdentifier × GpuConfig) :=
  (parseU32 p.1).bind fun k =>
  match p.2 with
  | .arr [j1, j2] =>
    (decodeGpuIdentifier j1).bind fun a =>
    (decodeGpuConfig j2).map fun c => (k, a, c)
  | _ => none

def encodeConfig (cfg : Config) : Json :=
  .obj [("gpu_configs", .obj (cfg.gpu_configs.map encodeConfigEntry)),
        ("allow_online_update", encodeOpt Json.bool cfg.allow_online_update),
        ("config_path", .str cfg.config_path),
        ("group", .str cfg.group)]

def decodeConfig : Json → Option Config
  | .obj l =>
    (List.lookup "gpu_configs" l).bind fun j1 =>
    (match j1 with
      | .obj entries => entries.mapM decodeConfigEntry
      | _ => none).bind fun gcs =>
    (List.lookup "allow_online_update" l).bind fun j2 =>
    (decodeOpt decodeBool j2).bind fun aou =>
    (List.lookup "config_path" l).bind fun j3 =>
    (decodeStr j3).bind fun cp =>
    (List.lookup "group" l).bind fun j4 =>
    (decodeStr j4).map fun g =>
    ⟨gcs, aou, cp, g⟩
  | _ => none

/-- `Config::save`: serialize the full `Config` (the document that is then
pretty-printed and written to `config_path`). -/
def saveConfig (cfg : Config) : Json := encodeConfig cfg

/-- `Config::read_from_file`: parse the document back into a `Config`. -/
def loadConfig (j : Json) : Option Config := decodeConfig j

/-- Well-formedness forced by the Rust types: map keys are `u32`, curve keys
are `i64`. -/
def ConfigWF (cfg : Config) : Prop :=
  ∀ e ∈ cfg.gpu_configs, e.1 < 2 ^ 32 ∧
    ∀ p ∈ e.2.2.fan_curve, -(2 ^ 63) ≤ p.1 ∧ p.1 ≤ 2 ^ 63 - 1

lemma decodeOpt_str (o : Option String) :
    decodeOpt decodeStr (encodeOpt Json.str o) = some o := by
  cases o <;> rfl

lemma decodeOpt_int (o : Option Int) :
    decodeOpt decodeInt (encodeOpt Json.int o) = some o := by
  cases o <;> rfl

lemma decodeOpt_bool (o : Option Bool) :
    decodeOpt decodeBool (encodeOpt Json.bool o) = some o := by
  cases o <;> rfl

lemma decodePowerProfile_encode (p : PowerProfile) :
    decodePowerProfile (encodePowerProfile p) = some p := by
  cases p <;> rfl

lemma decodeCurve_encode (curve : List (Int × ℚ))
    (hb : ∀ p ∈ curve, -(2 ^ 63) ≤ p.1 ∧ p.1 ≤ 2 ^ 63 - 1) :
    decodeCurve (encodeCurve curve) = some curve := by
  induction curve with
  | nil => rfl
  | cons p ps ih =>
    obtain ⟨h1, h2⟩ := hb p (by simp)
    have hps : ∀ q ∈ ps, -(2 ^ 63) ≤ q.1 ∧ q.1 ≤ 2 ^ 63 - 1 :=
      fun q hq => hb q (by simp [hq])
    have ihs := ih hps
    simp only [encodeCurve, decodeCurve, List.map_cons, List.mapM_cons] at ihs ⊢
    rw [parseI64_intToString p.1 h1 h2]
    have hdn : decodeNum (Json.num p.2) = some p.2 := rfl
    rw [hdn, ihs]
    rfl

lemma decodeGpuIdentifier_encode (a : GpuIdentifier) :
    decodeGpuIdentifier (encodeGpuIdentifier a) = some a := by
  obtain ⟨pci, cm, gm, p⟩ := a
  cases cm <;> cases gm <;> rfl

lemma decodeGpuConfig_encode (c : GpuConfig)
    (hb : ∀ p ∈ c.fan_curve, -(2 ^ 63) ≤ p.1 ∧ p.1 ≤ 2 ^ 63 - 1) :
    decodeGpuConfig (encodeGpuConfig c) = some c := by
  obtain ⟨fce, curve, pc, pp, gmc, gmv, vmc⟩ := c
  simp only [GpuConfig.fan_curve] at hb
  have hc := decodeCurve_encode curve hb
  simp +decide [encodeGpuConfig, decodeGpuConfig, List.lookup, decodeBool,
    decodeInt, hc, decodeOpt_int, decodePowerProfile_encode]

lemma decodeConfigEntry_encode (e : Nat × GpuIdentifier × GpuConfig)
    (hk : e.1 < 2 ^ 32)
    (hb : ∀ p ∈ e.2.2.fan_curve, -(2 ^ 63) ≤ p.1 ∧ p.1 ≤ 2 ^ 63 - 1) :
    decodeConfigEntry (encodeConfigEntry e) = some e := by
  obtain ⟨k, a, c⟩ := e
  simp only [encodeConfigEntry, decodeConfigEntry]
  rw [parseU32_natToString k hk]
  simp [decodeGpuIdentifier_encode a, decodeGpuConfig_encode c hb]

lemma mapM_decodeConfigEntry (l : List (Nat × GpuIdentifier × GpuConfig))
    (hwf : ∀ e ∈ l, e.1 < 2 ^ 32 ∧
      ∀ p ∈ e.2.2.fan_curve, -(2 ^ 63) ≤ p.1 ∧ p.1 ≤ 2 ^ 63 - 1) :
    (l.map encodeConfigEntry).mapM decodeConfigEntry = some l := by
  induction l with
  | nil => rfl
  | cons e es ih =>
    obtain ⟨hk, hb⟩ := hwf e (by simp)
    have hes : ∀ x ∈ es, x.1 < 2 ^ 32 ∧
        ∀ p ∈ x.2.2.fan_curve, -(2 ^ 63) ≤ p.1 ∧ p.1 ≤ 2 ^ 63 - 1 :=
      fun x hx => hwf x (by simp [hx])
    simp only [List.map_cons, List.mapM_cons, decodeConfigEntry_encode e hk hb,
      ih hes]
    rfl

/-- C8: for every well-formed `Config` (map keys within `u32`, curve keys
within `i64` — the invariants of the Rust types), serializing with
`Config::save` and parsing the document back with `Config::read_from_file`
returns a `Config` equal to the original. -/
theorem lact_c8 : ∀ cfg : Config, ConfigWF cfg →
    loadConfig (saveConfig cfg) = some cfg := by
  intro cfg hwf
  obtain ⟨gcs, aou, cp, g⟩ := cfg
  simp only [ConfigWF] at hwf
  have hmap : List.mapM.loop decodeConfigEntry (List.map encodeConfigEntry gcs) []
      = some gcs := mapM_decodeConfigEntry gcs hwf
  simp +decide [loadConfig, saveConfig, encodeConfig, decodeConfig,
    List.lookup, hmap, decodeOpt_bool, decodeStr]

instance (cfg : Config) : Decidable (ConfigWF cfg) :=
  inferInstanceAs (Decidable (∀ e ∈ cfg.gpu_configs, e.1 < 2 ^ 32 ∧
    ∀ p ∈ e.2.2.fan_curve, -(2 ^ 63) ≤ p.1 ∧ p.1 ≤ 2 ^ 63 - 1))

/-- A concrete configuration for the round-trip witness: one device with
the default settings of `GpuConfig::new`. -/
def exampleConfig : Config :=
  ⟨[(0, ⟨"0000:0b:00.0", some "Navi 10", none, "/sys/class/drm/card0/device"⟩,
      GpuConfig.new)],
    none, "/etc/lact/config.json", "wheel"⟩

/-- C8, witness: the example configuration round-trips. -/
theorem lact_c8_witness : loadConfig (saveConfig exampleConfig) = some exampleConfig :=
  lact_c8 exampleConfig (by decide)
